import Mathlib

/-!
Shallow embedding of the editly orchestration engine (src/dist/index.js):
the chunk reassembler `rawVideoToFrames`, the per-layer `FrameSource` time
window, the cut-mode compositor of `Transition.create`, the transition
clamp of `parseConfig`, and the main scheduler loop of `Editly`.

Frame buffers are modelled as lists of bytes (`List ℕ`), times and easing
values as rationals, JS `Math.floor` as `Int.floor` and `Math.round` as
`⌊x + 1/2⌋` (JS rounds half toward positive infinity).
-/

/-- One decoded RGBA frame buffer, as a byte list. -/
abbrev Frame := List ℕ

/-- JS `Math.round`: rounds half toward positive infinity. -/
def jsRound (q : ℚ) : ℤ := ⌊q + 1 / 2⌋

/-- JS `Number.MAX_SAFE_INTEGER`, which the scheduler substitutes for
`toClipNumFrames` when there is no 'to' clip. -/
def maxSafeInteger : ℚ := 2 ^ 53 - 1

/-! ## ChunkReassembler: `rawVideoToFrames` (src/dist/index.js:1157-1181)

The JS transform keeps one accumulation buffer of `frameByteSize` bytes and
a cursor `bytesRead`; here the filled part of that buffer is the list
`buffer` (so `bytesRead = buffer.length`).  Each while-loop iteration copies
`min (frameByteSize - bytesRead) remaining` bytes from the chunk and emits
the buffer exactly when the cursor wraps to 0 modulo `frameByteSize`.  The
`fuel` argument bounds the number of loop iterations; `chunk.length + 1`
always suffices because every iteration on a nonempty remaining chunk
consumes at least one byte (when `0 < frameByteSize`). -/
def rawVideoTransform (frameByteSize : ℕ) : ℕ → List ℕ → List ℕ → List (List ℕ) × List ℕ
  | 0, buffer, _ => ([], buffer)
  | fuel + 1, buffer, chunk =>
    if chunk.length = 0 then ([], buffer)
    else
      let bytesToRead := min (frameByteSize - buffer.length) chunk.length
      let buffer2 := buffer ++ chunk.take bytesToRead
      let rest := chunk.drop bytesToRead
      if buffer2.length % frameByteSize = 0 then
        let r := rawVideoTransform frameByteSize fuel [] rest
        (buffer2 :: r.1, r.2)
      else
        rawVideoTransform frameByteSize fuel buffer2 rest

/-- The frame stream emitted by the `rawVideoToFrames` transform when fed
`chunks` in order, threading the accumulation buffer across chunk
boundaries exactly as the Transform stream does. -/
def rawVideoToFrames (frameByteSize : ℕ) (chunks : List (List ℕ)) : List (List ℕ) :=
  (chunks.foldl
    (fun acc chunk =>
      let r := rawVideoTransform frameByteSize (chunk.length + 1) acc.2 chunk
      (acc.1 ++ r.1, r.2))
    (([] : List (List ℕ)), ([] : List ℕ))).1

/-- Reference shape of the reassembled output: the byte stream cut into
consecutive groups of exactly `fs` bytes, the trailing shorter group
dropped. -/
def framesOfBytes (fs : ℕ) (l : List ℕ) : List (List ℕ) :=
  if _h : 0 < fs ∧ fs ≤ l.length then
    l.take fs :: framesOfBytes fs (l.drop fs)
  else []
termination_by l.length
decreasing_by
  simp only [List.length_drop]
  omega

/-- The bytes left over after cutting `l` into groups of `fs` bytes: the
trailing group of fewer than `fs` bytes. -/
def framesRemainder (fs : ℕ) (l : List ℕ) : List ℕ :=
  if _h : 0 < fs ∧ fs ≤ l.length then
    framesRemainder fs (l.drop fs)
  else l
termination_by l.length
decreasing_by
  simp only [List.length_drop]
  omega

/-! ## FrameSource wrapper (src/dist/index.js:334-355)

`FrameSource.readNextFrame(time, canvas)` computes
`offsetProgress = (time - (start ?? 0)) / layerDuration` and invokes the
underlying producer implementation only when
`offsetProgress >= 0 && offsetProgress <= 1`. -/
def shouldDrawLayer (offsetProgress : ℚ) : Bool :=
  decide (0 ≤ offsetProgress) && decide (offsetProgress ≤ 1)

/-- `FrameSource.readNextFrame`: the producer is invoked (with the
normalized progress) exactly when `shouldDrawLayer`; otherwise the layer
contributes nothing (`none`). -/
def frameSourceReadNextFrame (start : Option ℚ) (layerDuration : ℚ)
    (producer : ℚ → Option Frame) (time : ℚ) : Option Frame :=
  let offsetTime := time - start.getD 0
  let offsetProgress := offsetTime / layerDuration
  if shouldDrawLayer offsetProgress then producer offsetProgress else none

/-! ## Compositor (`Transition.create`, src/dist/index.js:1608-1655)

When the transition has no GL source (no named transition), the returned
closure is the cut compositor:
`this.easingFunction(progress) > 0.5 ? toFrame : fromFrame`. -/

/-- The default easing (src/dist/index.js:910). -/
def linear (x : ℚ) : ℚ := x

/-- Cut-mode compositor from `Transition.create`
(src/dist/index.js:1619-1622). -/
def cutTransitionFrame (easingFunction : ℚ → ℚ) (fromFrame toFrame : Frame)
    (progress : ℚ) : Frame :=
  if easingFunction progress > 1 / 2 then toFrame else fromFrame

/-! ## Transition clamp in `parseConfig` (src/dist/index.js:1821-1837) -/

/-- A parsed clip, reduced to the fields the scheduler reads: its duration
and its outgoing transition's duration (both in seconds). -/
structure Clip where
  duration : ℚ
  transitionDuration : ℚ
deriving DecidableEq

/-- `safeTransitionDuration` of src/dist/index.js:1823-1830: `0` when there
is no next clip, otherwise
`Math.min(clip.duration / 2, nextClip.duration / 2, clip.transition.duration)`. -/
def safeTransitionDuration (clip : Clip) (nextClip : Option Clip) : ℚ :=
  match nextClip with
  | none => 0
  | some next => min (min (clip.duration / 2) (next.duration / 2)) clip.transitionDuration

/-- The final pass of `parseConfig` replacing each clip's transition
duration with its `safeTransitionDuration` (the next clip's duration is
read from the unmodified input, which is what the JS map does since only
transition durations are overwritten). -/
def parseConfigClamp : List Clip → List Clip
  | [] => []
  | clip :: rest =>
    { clip with transitionDuration := safeTransitionDuration clip rest.head? }
      :: parseConfigClamp rest

/-! ## ClipRenderer (`createFrameSource`, src/dist/index.js:1506-1563)

`readNextFrame({time})` walks the layer frame sources in order; a layer's
`some` result is returned directly when there is exactly one layer source,
otherwise it is painted onto the shared fabric canvas; after the loop the
rendered canvas is returned.  The canvas is modelled as the list of painted
layer buffers and the (external) fabric render as a function of it. -/
def clipRenderLoop (numLayerSources : ℕ) (render : List Frame → Frame) :
    List Frame → List (Option Frame) → Frame
  | canvas, [] => render canvas
  | canvas, none :: rest => clipRenderLoop numLayerSources render canvas rest
  | canvas, some rgba :: rest =>
    if numLayerSources = 1 then rgba
    else clipRenderLoop numLayerSources render (canvas ++ [rgba]) rest

/-- `createFrameSource(...).readNextFrame`, given each layer source's
result for the requested time. -/
def clipReadNextFrame (render : List Frame → Frame)
    (layerResults : List (Option Frame)) : Frame :=
  clipRenderLoop layerResults.length render [] layerResults

/-! ## TransitionScheduler (`Editly` main loop, src/dist/index.js:2051-2195) -/

/-- The scheduler's mutable variables, plus the written output stream and
counters for the two non-fatal warning paths.  `blendedFrames` counts the
frames produced by invoking the compositor (`runTransitionOnFrame`). -/
structure RunState where
  transitionFromClipId : ℕ
  fromClipFrameAt : ℤ
  toClipFrameAt : ℤ
  frameSource1Data : Option Frame
  outFrames : List (Option Frame)
  blendedFrames : ℕ
  noFrame1Warnings : ℕ
  noFrame2Warnings : ℕ
deriving DecidableEq

/-- Initial scheduler state (src/dist/index.js:2053-2059). -/
def initState : RunState :=
  { transitionFromClipId := 0
    fromClipFrameAt := 0
    toClipFrameAt := 0
    frameSource1Data := none
    outFrames := []
    blendedFrames := 0
    noFrame1Warnings := 0
    noFrame2Warnings := 0 }

/-- `getTransitionFromClip()` (src/dist/index.js:2061). -/
def getTransitionFromClip (clips : List Clip) (st : RunState) : Option Clip :=
  clips[st.transitionFromClipId]?

/-- `getTransitionToClip()` (src/dist/index.js:2062). -/
def getTransitionToClip (clips : List Clip) (st : RunState) : Option Clip :=
  clips[st.transitionFromClipId + 1]?

/-- `Math.round(clip.duration * fps)` (src/dist/index.js:2094-2095). -/
def clipNumFrames (fps : ℚ) (clip : Clip) : ℤ := jsRound (clip.duration * fps)

/-- `transitionNumFramesSafe` as computed each tick
(src/dist/index.js:2103-2111):
`Math.floor(Math.min(Math.min(from, to ?? MAX_SAFE_INTEGER) / 2, transition))`. -/
def transitionNumFramesSafe (fromClipNumFrames : ℚ) (toClipNumFrames : Option ℚ)
    (transitionNumFrames : ℚ) : ℤ :=
  ⌊min (min fromClipNumFrames (toClipNumFrames.getD maxSafeInteger) / 2)
      transitionNumFrames⌋

/-- Stated from the spec's words, for comparison against the code's
`transitionNumFramesSafe` — NOT a translation of the source:
`safeOverlap = floor(min(fromClipNumFrames, toClipNumFrames ?? +∞,
transitionNumFrames) / 2)`, the halving applied to the minimum of all three
quantities, with `+∞` rendered as the same `MAX_SAFE_INTEGER` stand-in the
code uses for an absent 'to' clip. -/
def specSafeOverlap (fromClipNumFrames : ℚ) (toClipNumFrames : Option ℚ)
    (transitionNumFrames : ℚ) : ℤ :=
  ⌊min (min fromClipNumFrames (toClipNumFrames.getD maxSafeInteger))
      transitionNumFrames / 2⌋

/-- `fromClipNumFrames` as the tick at state `st` computes it. -/
def fromClipNumFramesAt (clips : List Clip) (fps : ℚ) (st : RunState) : Option ℤ :=
  (getTransitionFromClip clips st).map (clipNumFrames fps)

/-- `toClipNumFrames` as the tick at state `st` computes it (`none` when
there is no 'to' clip). -/
def toClipNumFramesAt (clips : List Clip) (fps : ℚ) (st : RunState) : Option ℤ :=
  (getTransitionToClip clips st).map (clipNumFrames fps)

/-- `transitionNumFrames` as the tick at state `st` computes it. -/
def transitionNumFramesAt (clips : List Clip) (fps : ℚ) (st : RunState) : Option ℤ :=
  (getTransitionFromClip clips st).map fun c => jsRound (c.transitionDuration * fps)

/-- `transitionNumFramesSafe` as the tick at state `st` computes it. -/
def transitionNumFramesSafeAt (clips : List Clip) (fps : ℚ) (st : RunState) : Option ℤ :=
  (getTransitionFromClip clips st).map fun fromClip =>
    transitionNumFramesSafe ((clipNumFrames fps fromClip : ℤ) : ℚ)
      ((getTransitionToClip clips st).map fun c => ((clipNumFrames fps c : ℤ) : ℚ))
      ((jsRound (fromClip.transitionDuration * fps) : ℤ) : ℚ)

/-- One iteration of the scheduler while-loop (src/dist/index.js:2091-2194).
`readFrame i t` is clip `i`'s renderer read at clip-relative time `t`
(`frameSource1`/`frameSource2` are the renderers of
`transitionFromClipId` and `transitionFromClipId + 1`);
`runTransitionOnFrame` is the compositor closure.  Returns `none` when the
loop `break`s (normal end of run). -/
def tick (clips : List Clip) (fps : ℚ) (readFrame : ℕ → ℚ → Option Frame)
    (runTransitionOnFrame : Frame → Frame → ℚ → Frame) (st : RunState) :
    Option RunState :=
  match getTransitionFromClip clips st with
  | none => none
  | some transitionFromClip =>
    let transitionToClip := getTransitionToClip clips st
    let fromClipNumFrames : ℤ := clipNumFrames fps transitionFromClip
    let fromClipProgress : ℚ := (st.fromClipFrameAt : ℚ) / (fromClipNumFrames : ℚ)
    let fromClipTime : ℚ := transitionFromClip.duration * fromClipProgress
    let transitionNumFrames : ℤ := jsRound (transitionFromClip.transitionDuration * fps)
    let transitionNumFramesSafe2 : ℤ :=
      transitionNumFramesSafe (fromClipNumFrames : ℚ)
        (transitionToClip.map fun c => ((clipNumFrames fps c : ℤ) : ℚ))
        (transitionNumFrames : ℚ)
    let transitionFrameAt : ℤ :=
      st.fromClipFrameAt - (fromClipNumFrames - transitionNumFramesSafe2)
    if transitionNumFramesSafe2 ≤ transitionFrameAt then
      -- `transitionFrameAt >= transitionLastFrameIndex`: advance to the next
      -- clip pair, or break when the promoted clip does not exist.
      match transitionToClip with
      | none => none
      | some _ =>
        some { st with
          transitionFromClipId := st.transitionFromClipId + 1
          fromClipFrameAt := transitionNumFramesSafe2
          toClipFrameAt := 0 }
    else
      let newFrameSource1Data := readFrame st.transitionFromClipId fromClipTime
      let frameSource1Data : Option Frame :=
        match newFrameSource1Data with
        | some d => some d
        | none => st.frameSource1Data
      let warn1 : ℕ := if newFrameSource1Data.isSome then 0 else 1
      -- `isInTransition = frameSource2 && transitionNumFramesSafe > 0 &&
      -- transitionFrameAt >= 0`; `frameSource2` exists iff the 'to' clip does.
      match transitionToClip,
          decide (0 < transitionNumFramesSafe2) && decide (0 ≤ transitionFrameAt) with
      | some toClip, true =>
        let toClipNumFrames : ℤ := clipNumFrames fps toClip
        let toClipProgress : ℚ := (st.toClipFrameAt : ℚ) / (toClipNumFrames : ℚ)
        let toClipTime : ℚ := toClip.duration * toClipProgress
        match readFrame (st.transitionFromClipId + 1) toClipTime with
        | some frameSource2Data =>
          let progress : ℚ := (transitionFrameAt : ℚ) / (transitionNumFramesSafe2 : ℚ)
          let outFrameData : Option Frame :=
            frameSource1Data.map fun f1 =>
              runTransitionOnFrame f1 frameSource2Data progress
          some { st with
            frameSource1Data := frameSource1Data
            outFrames := st.outFrames ++ [outFrameData]
            blendedFrames := st.blendedFrames + 1
            noFrame1Warnings := st.noFrame1Warnings + warn1
            fromClipFrameAt := st.fromClipFrameAt + 1
            toClipFrameAt := st.toClipFrameAt + 1 }
        | none =>
          -- "Got no frame data from transitionToClip!": fall back to the
          -- unblended 'from' buffer.
          some { st with
            frameSource1Data := frameSource1Data
            outFrames := st.outFrames ++ [frameSource1Data]
            noFrame1Warnings := st.noFrame1Warnings + warn1
            noFrame2Warnings := st.noFrame2Warnings + 1
            fromClipFrameAt := st.fromClipFrameAt + 1
            toClipFrameAt := st.toClipFrameAt + 1 }
      | _, _ =>
        some { st with
          frameSource1Data := frameSource1Data
          outFrames := st.outFrames ++ [frameSource1Data]
          noFrame1Warnings := st.noFrame1Warnings + warn1
          fromClipFrameAt := st.fromClipFrameAt + 1 }

/-- Iterate the scheduler loop for at most `fuel` ticks.  The `Bool` is
`true` when the loop reached its normal `break` within the fuel. -/
def runLoop (clips : List Clip) (fps : ℚ) (readFrame : ℕ → ℚ → Option Frame)
    (runTransitionOnFrame : Frame → Frame → ℚ → Frame) :
    ℕ → RunState → RunState × Bool
  | 0, st => (st, false)
  | fuel + 1, st =>
    match tick clips fps readFrame runTransitionOnFrame st with
    | none => (st, true)
    | some st2 => runLoop clips fps readFrame runTransitionOnFrame fuel st2

/-- Scenario A input: a 2-second clip with a 1-second outgoing transition,
followed by a 3-second (final) clip. -/
def scenarioAClipsIn : List Clip := [⟨2, 1⟩, ⟨3, 0⟩]

/-- Scenario A clips after the `parseConfig` transition clamp. -/
def scenarioAClips : List Clip := parseConfigClamp scenarioAClipsIn

/-- Scenario A run at 10 fps: renderers always return a frame and the
compositor is irrelevant to frame accounting. -/
def scenarioARun : RunState × Bool :=
  runLoop scenarioAClips 10 (fun _ _ => some []) (fun f1 _ _ => f1) 100 initState

/-- Scenario C clips: one 1-second clip (final clip, so transition duration
`0` per the `Transition` constructor and the clamp). -/
def scenarioCClips : List Clip := parseConfigClamp [⟨1, 0⟩]

/-- Scenario C reader: the sole clip's renderer returns no data exactly at
clip time `1/2` (tick 5 of the 10-tick run) and `g`'s frame elsewhere. -/
def scenarioCReader (g : ℚ → Frame) : ℕ → ℚ → Option Frame :=
  fun _ t => if t = 1 / 2 then none else some (g t)

/-- Scenario C run at 10 fps. -/
def scenarioCRun (g : ℚ → Frame) (comp : Frame → Frame → ℚ → Frame) :
    RunState × Bool :=
  runLoop scenarioCClips 10 (scenarioCReader g) comp 20 initState

/-! ## Lemmas: chunk reassembly -/

theorem framesOfBytes_of_lt {fs : ℕ} {l : List ℕ} (h : l.length < fs) :
    framesOfBytes fs l = [] := by
  rw [framesOfBytes, dif_neg]
  omega

theorem framesRemainder_of_lt {fs : ℕ} {l : List ℕ} (h : l.length < fs) :
    framesRemainder fs l = l := by
  rw [framesRemainder, dif_neg]
  omega

theorem framesRemainder_length_lt (fs : ℕ) (hfs : 0 < fs) (l : List ℕ) :
    (framesRemainder fs l).length < fs := by
  by_cases h : fs ≤ l.length
  · rw [framesRemainder, dif_pos ⟨hfs, h⟩]
    exact framesRemainder_length_lt fs hfs (l.drop fs)
  · rw [framesRemainder, dif_neg (by omega)]
    omega
termination_by l.length
decreasing_by
  simp only [List.length_drop]
  omega

theorem framesSplit_append (fs : ℕ) (hfs : 0 < fs) (l m : List ℕ) :
    framesOfBytes fs (l ++ m)
        = framesOfBytes fs l ++ framesOfBytes fs (framesRemainder fs l ++ m)
      ∧ framesRemainder fs (l ++ m)
        = framesRemainder fs (framesRemainder fs l ++ m) := by
  by_cases h : fs ≤ l.length
  · have htake : (l ++ m).take fs = l.take fs := List.take_append_of_le_length h
    have hdrop : (l ++ m).drop fs = l.drop fs ++ m := List.drop_append_of_le_length h
    have hlen : fs ≤ (l ++ m).length := by
      simp only [List.length_append]
      omega
    have hrem : framesRemainder fs l = framesRemainder fs (l.drop fs) := by
      rw [framesRemainder, dif_pos ⟨hfs, h⟩]
    have ih := framesSplit_append fs hfs (l.drop fs) m
    constructor
    · rw [framesOfBytes, dif_pos ⟨hfs, hlen⟩, htake, hdrop, ih.1, hrem]
      conv_rhs => rw [framesOfBytes, dif_pos ⟨hfs, h⟩]
      simp [List.cons_append]
    · rw [framesRemainder, dif_pos ⟨hfs, hlen⟩, hdrop, ih.2, hrem]
  · have hl : l.length < fs := by omega
    rw [framesOfBytes_of_lt hl, framesRemainder_of_lt hl]
    simp
termination_by l.length
decreasing_by
  simp only [List.length_drop]
  omega

theorem rawVideoTransform_eq (fs : ℕ) (hfs : 0 < fs) (fuel : ℕ) :
    ∀ buffer chunk : List ℕ, buffer.length < fs → chunk.length ≤ fuel →
      rawVideoTransform fs fuel buffer chunk
        = (framesOfBytes fs (buffer ++ chunk), framesRemainder fs (buffer ++ chunk)) := by
  induction fuel with
  | zero =>
    intro buffer chunk hbuf hchunk
    have hc : chunk = [] := List.length_eq_zero.mp (by omega)
    subst hc
    have hlen : (buffer ++ ([] : List ℕ)).length < fs := by simpa using hbuf
    rw [rawVideoTransform, framesOfBytes_of_lt hlen, framesRemainder_of_lt hlen]
    simp
  | succ fuel ih =>
    intro buffer chunk hbuf hchunk
    by_cases hc : chunk.length = 0
    · have hcnil : chunk = [] := List.length_eq_zero.mp hc
      subst hcnil
      have hlen : (buffer ++ ([] : List ℕ)).length < fs := by simpa using hbuf
      rw [rawVideoTransform, framesOfBytes_of_lt hlen, framesRemainder_of_lt hlen]
      simp
    · rw [rawVideoTransform]
      simp only [if_neg hc]
      by_cases hcase : fs - buffer.length ≤ chunk.length
      · -- the chunk fills the buffer: a frame is emitted and the loop continues
        have hmin : min (fs - buffer.length) chunk.length = fs - buffer.length :=
          min_eq_left hcase
        have htklen : (chunk.take (fs - buffer.length)).length = fs - buffer.length := by
          simp only [List.length_take]
          omega
        have hb2len : (buffer ++ chunk.take (fs - buffer.length)).length = fs := by
          simp only [List.length_append, htklen]
          omega
        have hrest : (chunk.drop (fs - buffer.length)).length ≤ fuel := by
          simp only [List.length_drop]
          omega
        have hfull : fs ≤ (buffer ++ chunk).length := by
          simp only [List.length_append]
          omega
        have htk : (buffer ++ chunk).take fs = buffer ++ chunk.take (fs - buffer.length) := by
          rw [List.take_append_eq_append_take, List.take_of_length_le (by omega)]
        have hdr : (buffer ++ chunk).drop fs = chunk.drop (fs - buffer.length) := by
          rw [List.drop_append_eq_append_drop, List.drop_eq_nil_of_le (by omega)]
          simp
        have h1 : framesOfBytes fs (buffer ++ chunk)
            = (buffer ++ chunk.take (fs - buffer.length))
              :: framesOfBytes fs (chunk.drop (fs - buffer.length)) := by
          rw [framesOfBytes, dif_pos ⟨hfs, hfull⟩, htk, hdr]
        have h2 : framesRemainder fs (buffer ++ chunk)
            = framesRemainder fs (chunk.drop (fs - buffer.length)) := by
          rw [framesRemainder, dif_pos ⟨hfs, hfull⟩, hdr]
        rw [hmin, if_pos (show (buffer ++ chunk.take (fs - buffer.length)).length % fs = 0 by
          rw [hb2len]
          exact Nat.mod_self fs)]
        rw [ih [] (chunk.drop (fs - buffer.length)) (by simpa using hfs) hrest, h1, h2]
        simp
      · -- the whole chunk fits in the accumulation buffer without filling it
        have hmin : min (fs - buffer.length) chunk.length = chunk.length :=
          min_eq_right (by omega)
        have hlt : (buffer ++ chunk).length < fs := by
          simp only [List.length_append]
          omega
        rw [hmin, List.take_length, List.drop_length]
        rw [if_neg (by
          rw [Nat.mod_eq_of_lt hlt]
          simp only [List.length_append]
          omega)]
        rw [ih (buffer ++ chunk) [] hlt (by simp)]
        simp

theorem rawVideoToFrames_foldl (fs : ℕ) (hfs : 0 < fs) (chunks : List (List ℕ)) :
    ∀ (frames0 : List (List ℕ)) (buf0 : List ℕ), buf0.length < fs →
      chunks.foldl
          (fun acc chunk =>
            let r := rawVideoTransform fs (chunk.length + 1) acc.2 chunk
            (acc.1 ++ r.1, r.2)) (frames0, buf0)
        = (frames0 ++ framesOfBytes fs (buf0 ++ chunks.flatten),
           framesRemainder fs (buf0 ++ chunks.flatten)) := by
  induction chunks with
  | nil =>
    intro frames0 buf0 hbuf
    have hlen : (buf0 ++ ([] : List (List ℕ)).flatten).length < fs := by simpa using hbuf
    rw [List.foldl_nil, framesOfBytes_of_lt hlen, framesRemainder_of_lt hlen]
    simp
  | cons c cs ih =>
    intro frames0 buf0 hbuf
    rw [List.foldl_cons]
    simp only
    rw [rawVideoTransform_eq fs hfs (c.length + 1) buf0 c hbuf (by omega)]
    rw [ih (frames0 ++ framesOfBytes fs (buf0 ++ c)) (framesRemainder fs (buf0 ++ c))
      (framesRemainder_length_lt fs hfs (buf0 ++ c))]
    have hsplit := framesSplit_append fs hfs (buf0 ++ c) cs.flatten
    rw [List.flatten_cons, ← List.append_assoc, hsplit.1, hsplit.2]
    simp

theorem rawVideoToFrames_eq_framesOfBytes (fs : ℕ) (hfs : 0 < fs)
    (chunks : List (List ℕ)) :
    rawVideoToFrames fs chunks = framesOfBytes fs chunks.flatten := by
  unfold rawVideoToFrames
  rw [rawVideoToFrames_foldl fs hfs chunks [] [] (by simpa using hfs)]
  simp

theorem length_of_mem_framesOfBytes (fs : ℕ) (l : List ℕ) :
    ∀ b ∈ framesOfBytes fs l, b.length = fs := by
  intro b hb
  by_cases h : 0 < fs ∧ fs ≤ l.length
  · rw [framesOfBytes, dif_pos h] at hb
    rcases List.mem_cons.mp hb with hb2 | hb2
    · subst hb2
      simp only [List.length_take]
      omega
    · exact length_of_mem_framesOfBytes fs (l.drop fs) b hb2
  · rw [framesOfBytes, dif_neg h] at hb
    simp at hb
termination_by l.length
decreasing_by
  simp only [List.length_drop]
  omega

theorem framesOfBytes_length (fs : ℕ) (hfs : 0 < fs) (l : List ℕ) :
    (framesOfBytes fs l).length = l.length / fs := by
  by_cases h : fs ≤ l.length
  · rw [framesOfBytes, dif_pos ⟨hfs, h⟩]
    simp only [List.length_cons]
    rw [framesOfBytes_length fs hfs (l.drop fs)]
    rw [Nat.div_eq l.length fs, if_pos ⟨hfs, h⟩]
    simp only [List.length_drop]
  · rw [framesOfBytes_of_lt (by omega)]
    rw [Nat.div_eq l.length fs, if_neg (by omega)]
    rfl
termination_by l.length
decreasing_by
  simp only [List.length_drop]
  omega

theorem framesOfBytes_flatten (fs : ℕ) (hfs : 0 < fs) (l : List ℕ) :
    (framesOfBytes fs l).flatten = l.take (l.length / fs * fs) := by
  by_cases h : fs ≤ l.length
  · rw [framesOfBytes, dif_pos ⟨hfs, h⟩]
    rw [List.flatten_cons]
    rw [framesOfBytes_flatten fs hfs (l.drop fs)]
    have hdiv : l.length / fs = (l.drop fs).length / fs + 1 := by
      rw [Nat.div_eq l.length fs, if_pos ⟨hfs, h⟩]
      simp only [List.length_drop]
    rw [hdiv, Nat.succ_mul, Nat.add_comm ((l.drop fs).length / fs * fs) fs, List.take_add]
  · rw [framesOfBytes_of_lt (by omega)]
    rw [Nat.div_eq_of_lt (by omega)]
    simp
termination_by l.length
decreasing_by
  simp only [List.length_drop]
  omega

theorem flatten_map_singleton (l : List ℕ) : (l.map fun b => [b]).flatten = l := by
  induction l with
  | nil => rfl
  | cons a t ih =>
    simp only [List.map_cons, List.flatten_cons, List.singleton_append, ih]

/-! ## Lemmas: transition overlap arithmetic -/

theorem transitionNumFramesSafe_intCast (a b t : ℤ) :
    transitionNumFramesSafe (a : ℚ) (some ((b : ℤ) : ℚ)) ((t : ℤ) : ℚ)
      = min (min a b / 2) t := by
  unfold transitionNumFramesSafe
  rw [Option.getD_some]
  have hmin : min (a : ℚ) (b : ℚ) = ((min a b : ℤ) : ℚ) := by
    push_cast
    rfl
  have hm : ⌊(((min a b : ℤ) : ℚ) / 2) ⊓ ((t : ℤ) : ℚ)⌋
      = ⌊((min a b : ℤ) : ℚ) / 2⌋ ⊓ ⌊((t : ℤ) : ℚ)⌋ := Int.floor_mono.map_min
  have hfloor : ⌊(((min a b : ℤ) : ℚ)) / 2⌋ = min a b / 2 := by
    have h2 : ((2 : ℕ) : ℚ) = (2 : ℚ) := by norm_num
    rw [← h2, Rat.floor_intCast_div_natCast]
    norm_num
  rw [hmin, hm, Int.floor_intCast, hfloor]

theorem transitionNumFramesSafe_le_half_min (fromN toN transN : ℚ) :
    transitionNumFramesSafe fromN (some toN) transN ≤ ⌊min fromN toN / 2⌋ := by
  unfold transitionNumFramesSafe
  rw [Option.getD_some]
  exact Int.floor_mono (min_le_left _ _)

theorem transitionNumFramesSafeAt_eq (clips : List Clip) (fps : ℚ) (st : RunState)
    (a b t : ℤ) (ha : fromClipNumFramesAt clips fps st = some a)
    (hb : toClipNumFramesAt clips fps st = some b)
    (ht : transitionNumFramesAt clips fps st = some t) :
    transitionNumFramesSafeAt clips fps st = some (min (min a b / 2) t) := by
  rcases Option.map_eq_some'.mp ha with ⟨fromClip, hfc, hfca⟩
  rcases Option.map_eq_some'.mp hb with ⟨toClip, htc, htcb⟩
  have ht2 : jsRound (fromClip.transitionDuration * fps) = t := by
    rcases Option.map_eq_some'.mp ht with ⟨fc2, hfc2, hfc2t⟩
    rw [hfc] at hfc2
    cases hfc2
    exact hfc2t
  unfold transitionNumFramesSafeAt
  rw [hfc, Option.map_some', htc, Option.map_some', hfca, htcb, ht2]
  rw [transitionNumFramesSafe_intCast a b t]

/-! ## Lemmas: parseConfig transition clamp -/

theorem parseConfigClamp_getElem (clips : List Clip) (i : ℕ) :
    (parseConfigClamp clips)[i]?
      = (clips[i]?).map fun clip =>
          { clip with transitionDuration := safeTransitionDuration clip clips[i + 1]? } := by
  induction clips generalizing i with
  | nil => simp [parseConfigClamp]
  | cons clip rest ih =>
    cases i with
    | zero =>
      simp only [parseConfigClamp, List.getElem?_cons_zero, List.getElem?_cons_succ,
        Option.map_some']
      rw [List.head?_eq_getElem?]
    | succ j =>
      simp only [parseConfigClamp, List.getElem?_cons_succ]
      exact ih j

/-! ## Lemmas: scheduler loop stepping -/

theorem runLoop_step (clips : List Clip) (fps : ℚ) (readFrame : ℕ → ℚ → Option Frame)
    (comp : Frame → Frame → ℚ → Frame) (fuel : ℕ) (st st2 : RunState)
    (h : tick clips fps readFrame comp st = some st2) :
    runLoop clips fps readFrame comp (fuel + 1) st
      = runLoop clips fps readFrame comp fuel st2 := by
  rw [runLoop, h]

theorem runLoop_done (clips : List Clip) (fps : ℚ) (readFrame : ℕ → ℚ → Option Frame)
    (comp : Frame → Frame → ℚ → Frame) (fuel : ℕ) (st : RunState)
    (h : tick clips fps readFrame comp st = none) :
    runLoop clips fps readFrame comp (fuel + 1) st = (st, true) := by
  rw [runLoop, h]

theorem tick_preserves_noFrame1 (clips : List Clip) (fps : ℚ) (cr : ℕ → ℚ → Frame)
    (comp : Frame → Frame → ℚ → Frame) (st st2 : RunState)
    (h : tick clips fps (fun i t => some (cr i t)) comp st = some st2) :
    st2.noFrame1Warnings = st.noFrame1Warnings := by
  simp only [tick, Option.isSome_some, if_true] at h
  split at h
  · exact absurd h (by simp)
  · split at h
    · split at h
      · exact absurd h (by simp)
      · rw [← Option.some_inj.mp h]
    · split at h
      · rw [← Option.some_inj.mp h]
        simp
      · rw [← Option.some_inj.mp h]
        simp

theorem runLoop_preserves_noFrame1 (clips : List Clip) (fps : ℚ) (cr : ℕ → ℚ → Frame)
    (comp : Frame → Frame → ℚ → Frame) (fuel : ℕ) :
    ∀ st : RunState,
      (runLoop clips fps (fun i t => some (cr i t)) comp fuel st).1.noFrame1Warnings
        = st.noFrame1Warnings := by
  induction fuel with
  | zero =>
    intro st
    rfl
  | succ fuel ih =>
    intro st
    rw [runLoop]
    cases htick : tick clips fps (fun i t => some (cr i t)) comp st with
    | none => rfl
    | some st2 =>
      rw [ih st2, tick_preserves_noFrame1 clips fps cr comp st st2 htick]

/-! ## Lemmas: clip renderer totality -/

theorem clipRenderLoop_length (n : ℕ) (render : List Frame → Frame) (sz : ℕ)
    (hrender : ∀ canvas, (render canvas).length = sz) (results : List (Option Frame))
    (hres : ∀ b : Frame, some b ∈ results → b.length = sz) :
    ∀ canvas : List Frame, (clipRenderLoop n render canvas results).length = sz := by
  induction results with
  | nil =>
    intro canvas
    exact hrender canvas
  | cons head rest ih =>
    intro canvas
    cases head with
    | none =>
      exact ih (fun b hb => hres b (List.mem_cons_of_mem _ hb)) canvas
    | some rgba =>
      rw [clipRenderLoop]
      by_cases hn : n = 1
      · rw [if_pos hn]
        exact hres rgba (List.mem_cons_self _ _)
      · rw [if_neg hn]
        exact ih (fun b hb => hres b (List.mem_cons_of_mem _ hb)) (canvas ++ [rgba])

theorem clipRenderLoop_all_none (n k : ℕ) (render : List Frame → Frame) :
    ∀ canvas : List Frame,
      clipRenderLoop n render canvas (List.replicate k none) = render canvas := by
  induction k with
  | zero =>
    intro canvas
    rfl
  | succ k ih =>
    intro canvas
    rw [List.replicate_succ, clipRenderLoop]
    exact ih canvas

/-! ## Scenario C trace: a full symbolic run of the single-clip schedule -/

theorem scenarioC_trace (g : ℚ → Frame) (comp : Frame → Frame → ℚ → Frame) :
    scenarioCRun g comp = (⟨0, 10, 0, some (g (9/10)), [some (g 0), some (g (1/10)), some (g (1/5)), some (g (3/10)), some (g (2/5)), some (g (2/5)), some (g (3/5)), some (g (7/10)), some (g (4/5)), some (g (9/10))], 0, 1, 0⟩, true) := by
  have h0 : tick scenarioCClips 10 (scenarioCReader g) comp initState
      = some ⟨0, 1, 0, some (g 0), [some (g 0)], 0, 0, 0⟩ := by
    simp only [tick, getTransitionFromClip, getTransitionToClip, scenarioCClips, scenarioCReader,
      parseConfigClamp, safeTransitionDuration, clipNumFrames, jsRound, transitionNumFramesSafe,
      List.getElem?_cons_zero, List.getElem?_cons_succ, List.getElem?_nil, Option.map_none',
      Option.getD_none, Option.map_some', Option.getD_some, List.head?_nil, initState]
    norm_num [maxSafeInteger]
  have h1 : tick scenarioCClips 10 (scenarioCReader g) comp ⟨0, 1, 0, some (g 0), [some (g 0)], 0, 0, 0⟩
      = some ⟨0, 2, 0, some (g (1/10)), [some (g 0), some (g (1/10))], 0, 0, 0⟩ := by
    simp only [tick, getTransitionFromClip, getTransitionToClip, scenarioCClips, scenarioCReader,
      parseConfigClamp, safeTransitionDuration, clipNumFrames, jsRound, transitionNumFramesSafe,
      List.getElem?_cons_zero, List.getElem?_cons_succ, List.getElem?_nil, Option.map_none',
      Option.getD_none, Option.map_some', Option.getD_some, List.head?_nil, initState]
    norm_num [maxSafeInteger]
  have h2 : tick scenarioCClips 10 (scenarioCReader g) comp ⟨0, 2, 0, some (g (1/10)), [some (g 0), some (g (1/10))], 0, 0, 0⟩
      = some ⟨0, 3, 0, some (g (1/5)), [some (g 0), some (g (1/10)), some (g (1/5))], 0, 0, 0⟩ := by
    simp only [tick, getTransitionFromClip, getTransitionToClip, scenarioCClips, scenarioCReader,
      parseConfigClamp, safeTransitionDuration, clipNumFrames, jsRound, transitionNumFramesSafe,
      List.getElem?_cons_zero, List.getElem?_cons_succ, List.getElem?_nil, Option.map_none',
      Option.getD_none, Option.map_some', Option.getD_some, List.head?_nil, initState]
    norm_num [maxSafeInteger]
  have h3 : tick scenarioCClips 10 (scenarioCReader g) comp ⟨0, 3, 0, some (g (1/5)), [some (g 0), some (g (1/10)), some (g (1/5))], 0, 0, 0⟩
      = some ⟨0, 4, 0, some (g (3/10)), [some (g 0), some (g (1/10)), some (g (1/5)), some (g (3/10))], 0, 0, 0⟩ := by
    simp only [tick, getTransitionFromClip, getTransitionToClip, scenarioCClips, scenarioCReader,
      parseConfigClamp, safeTransitionDuration, clipNumFrames, jsRound, transitionNumFramesSafe,
      List.getElem?_cons_zero, List.getElem?_cons_succ, List.getElem?_nil, Option.map_none',
      Option.getD_none, Option.map_some', Option.getD_some, List.head?_nil, initState]
    norm_num [maxSafeInteger]
  have h4 : tick scenarioCClips 10 (scenarioCReader g) comp ⟨0, 4, 0, some (g (3/10)), [some (g 0), some (g (1/10)), some (g (1/5)), some (g (3/10))], 0, 0, 0⟩
      = some ⟨0, 5, 0, some (g (2/5)), [some (g 0), some (g (1/10)), some (g (1/5)), some (g (3/10)), some (g (2/5))], 0, 0, 0⟩ := by
    simp only [tick, getTransitionFromClip, getTransitionToClip, scenarioCClips, scenarioCReader,
      parseConfigClamp, safeTransitionDuration, clipNumFrames, jsRound, transitionNumFramesSafe,
      List.getElem?_cons_zero, List.getElem?_cons_succ, List.getElem?_nil, Option.map_none',
      Option.getD_none, Option.map_some', Option.getD_some, List.head?_nil, initState]
    norm_num [maxSafeInteger]
  have h5 : tick scenarioCClips 10 (scenarioCReader g) comp ⟨0, 5, 0, some (g (2/5)), [some (g 0), some (g (1/10)), some (g (1/5)), some (g (3/10)), some (g (2/5))], 0, 0, 0⟩
      = some ⟨0, 6, 0, some (g (2/5)), [some (g 0), some (g (1/10)), some (g (1/5)), some (g (3/10)), some (g (2/5)), some (g (2/5))], 0, 1, 0⟩ := by
    simp only [tick, getTransitionFromClip, getTransitionToClip, scenarioCClips, scenarioCReader,
      parseConfigClamp, safeTransitionDuration, clipNumFrames, jsRound, transitionNumFramesSafe,
      List.getElem?_cons_zero, List.getElem?_cons_succ, List.getElem?_nil, Option.map_none',
      Option.getD_none, Option.map_some', Option.getD_some, List.head?_nil, initState]
    norm_num [maxSafeInteger]
  have h6 : tick scenarioCClips 10 (scenarioCReader g) comp ⟨0, 6, 0, some (g (2/5)), [some (g 0), some (g (1/10)), some (g (1/5)), some (g (3/10)), some (g (2/5)), some (g (2/5))], 0, 1, 0⟩
      = some ⟨0, 7, 0, some (g (3/5)), [some (g 0), some (g (1/10)), some (g (1/5)), some (g (3/10)), some (g (2/5)), some (g (2/5)), some (g (3/5))], 0, 1, 0⟩ := by
    simp only [tick, getTransitionFromClip, getTransitionToClip, scenarioCClips, scenarioCReader,
      parseConfigClamp, safeTransitionDuration, clipNumFrames, jsRound, transitionNumFramesSafe,
      List.getElem?_cons_zero, List.getElem?_cons_succ, List.getElem?_nil, Option.map_none',
      Option.getD_none, Option.map_some', Option.getD_some, List.head?_nil, initState]
    norm_num [maxSafeInteger]
  have h7 : tick scenarioCClips 10 (scenarioCReader g) comp ⟨0, 7, 0, some (g (3/5)), [some (g 0), some (g (1/10)), some (g (1/5)), some (g (3/10)), some (g (2/5)), some (g (2/5)), some (g (3/5))], 0, 1, 0⟩
      = some ⟨0, 8, 0, some (g (7/10)), [some (g 0), some (g (1/10)), some (g (1/5)), some (g (3/10)), some (g (2/5)), some (g (2/5)), some (g (3/5)), some (g (7/10))], 0, 1, 0⟩ := by
    simp only [tick, getTransitionFromClip, getTransitionToClip, scenarioCClips, scenarioCReader,
      parseConfigClamp, safeTransitionDuration, clipNumFrames, jsRound, transitionNumFramesSafe,
      List.getElem?_cons_zero, List.getElem?_cons_succ, List.getElem?_nil, Option.map_none',
      Option.getD_none, Option.map_some', Option.getD_some, List.head?_nil, initState]
    norm_num [maxSafeInteger]
  have h8 : tick scenarioCClips 10 (scenarioCReader g) comp ⟨0, 8, 0, some (g (7/10)), [some (g 0), some (g (1/10)), some (g (1/5)), some (g (3/10)), some (g (2/5)), some (g (2/5)), some (g (3/5)), some (g (7/10))], 0, 1, 0⟩
      = some ⟨0, 9, 0, some (g (4/5)), [some (g 0), some (g (1/10)), some (g (1/5)), some (g (3/10)), some (g (2/5)), some (g (2/5)), some (g (3/5)), some (g (7/10)), some (g (4/5))], 0, 1, 0⟩ := by
    simp only [tick, getTransitionFromClip, getTransitionToClip, scenarioCClips, scenarioCReader,
      parseConfigClamp, safeTransitionDuration, clipNumFrames, jsRound, transitionNumFramesSafe,
      List.getElem?_cons_zero, List.getElem?_cons_succ, List.getElem?_nil, Option.map_none',
      Option.getD_none, Option.map_some', Option.getD_some, List.head?_nil, initState]
    norm_num [maxSafeInteger]
  have h9 : tick scenarioCClips 10 (scenarioCReader g) comp ⟨0, 9, 0, some (g (4/5)), [some (g 0), some (g (1/10)), some (g (1/5)), some (g (3/10)), some (g (2/5)), some (g (2/5)), some (g (3/5)), some (g (7/10)), some (g (4/5))], 0, 1, 0⟩
      = some ⟨0, 10, 0, some (g (9/10)), [some (g 0), some (g (1/10)), some (g (1/5)), some (g (3/10)), some (g (2/5)), some (g (2/5)), some (g (3/5)), some (g (7/10)), some (g (4/5)), some (g (9/10))], 0, 1, 0⟩ := by
    simp only [tick, getTransitionFromClip, getTransitionToClip, scenarioCClips, scenarioCReader,
      parseConfigClamp, safeTransitionDuration, clipNumFrames, jsRound, transitionNumFramesSafe,
      List.getElem?_cons_zero, List.getElem?_cons_succ, List.getElem?_nil, Option.map_none',
      Option.getD_none, Option.map_some', Option.getD_some, List.head?_nil, initState]
    norm_num [maxSafeInteger]
  have h10 : tick scenarioCClips 10 (scenarioCReader g) comp ⟨0, 10, 0, some (g (9/10)), [some (g 0), some (g (1/10)), some (g (1/5)), some (g (3/10)), some (g (2/5)), some (g (2/5)), some (g (3/5)), some (g (7/10)), some (g (4/5)), some (g (9/10))], 0, 1, 0⟩ = none := by
    simp only [tick, getTransitionFromClip, getTransitionToClip, scenarioCClips, scenarioCReader,
      parseConfigClamp, safeTransitionDuration, clipNumFrames, jsRound, transitionNumFramesSafe,
      List.getElem?_cons_zero, List.getElem?_cons_succ, List.getElem?_nil, Option.map_none',
      Option.getD_none, Option.map_some', Option.getD_some, List.head?_nil, initState]
    norm_num [maxSafeInteger]
  have e0 : runLoop scenarioCClips 10 (scenarioCReader g) comp 20 initState
      = runLoop scenarioCClips 10 (scenarioCReader g) comp 19 ⟨0, 1, 0, some (g 0), [some (g 0)], 0, 0, 0⟩ :=
    runLoop_step scenarioCClips 10 (scenarioCReader g) comp 19 initState ⟨0, 1, 0, some (g 0), [some (g 0)], 0, 0, 0⟩ h0
  have e1 : runLoop scenarioCClips 10 (scenarioCReader g) comp 19 ⟨0, 1, 0, some (g 0), [some (g 0)], 0, 0, 0⟩
      = runLoop scenarioCClips 10 (scenarioCReader g) comp 18 ⟨0, 2, 0, some (g (1/10)), [some (g 0), some (g (1/10))], 0, 0, 0⟩ :=
    runLoop_step scenarioCClips 10 (scenarioCReader g) comp 18 ⟨0, 1, 0, some (g 0), [some (g 0)], 0, 0, 0⟩ ⟨0, 2, 0, some (g (1/10)), [some (g 0), some (g (1/10))], 0, 0, 0⟩ h1
  have e2 : runLoop scenarioCClips 10 (scenarioCReader g) comp 18 ⟨0, 2, 0, some (g (1/10)), [some (g 0), some (g (1/10))], 0, 0, 0⟩
      = runLoop scenarioCClips 10 (scenarioCReader g) comp 17 ⟨0, 3, 0, some (g (1/5)), [some (g 0), some (g (1/10)), some (g (1/5))], 0, 0, 0⟩ :=
    runLoop_step scenarioCClips 10 (scenarioCReader g) comp 17 ⟨0, 2, 0, some (g (1/10)), [some (g 0), some (g (1/10))], 0, 0, 0⟩ ⟨0, 3, 0, some (g (1/5)), [some (g 0), some (g (1/10)), some (g (1/5))], 0, 0, 0⟩ h2
  have e3 : runLoop scenarioCClips 10 (scenarioCReader g) comp 17 ⟨0, 3, 0, some (g (1/5)), [some (g 0), some (g (1/10)), some (g (1/5))], 0, 0, 0⟩
      = runLoop scenarioCClips 10 (scenarioCReader g) comp 16 ⟨0, 4, 0, some (g (3/10)), [some (g 0), some (g (1/10)), some (g (1/5)), some (g (3/10))], 0, 0, 0⟩ :=
    runLoop_step scenarioCClips 10 (scenarioCReader g) comp 16 ⟨0, 3, 0, some (g (1/5)), [some (g 0), some (g (1/10)), some (g (1/5))], 0, 0, 0⟩ ⟨0, 4, 0, some (g (3/10)), [some (g 0), some (g (1/10)), some (g (1/5)), some (g (3/10))], 0, 0, 0⟩ h3
  have e4 : runLoop scenarioCClips 10 (scenarioCReader g) comp 16 ⟨0, 4, 0, some (g (3/10)), [some (g 0), some (g (1/10)), some (g (1/5)), some (g (3/10))], 0, 0, 0⟩
      = runLoop scenarioCClips 10 (scenarioCReader g) comp 15 ⟨0, 5, 0, some (g (2/5)), [some (g 0), some (g (1/10)), some (g (1/5)), some (g (3/10)), some (g (2/5))], 0, 0, 0⟩ :=
    runLoop_step scenarioCClips 10 (scenarioCReader g) comp 15 ⟨0, 4, 0, some (g (3/10)), [some (g 0), some (g (1/10)), some (g (1/5)), some (g (3/10))], 0, 0, 0⟩ ⟨0, 5, 0, some (g (2/5)), [some (g 0), some (g (1/10)), some (g (1/5)), some (g (3/10)), some (g (2/5))], 0, 0, 0⟩ h4
  have e5 : runLoop scenarioCClips 10 (scenarioCReader g) comp 15 ⟨0, 5, 0, some (g (2/5)), [some (g 0), some (g (1/10)), some (g (1/5)), some (g (3/10)), some (g (2/5))], 0, 0, 0⟩
      = runLoop scenarioCClips 10 (scenarioCReader g) comp 14 ⟨0, 6, 0, some (g (2/5)), [some (g 0), some (g (1/10)), some (g (1/5)), some (g (3/10)), some (g (2/5)), some (g (2/5))], 0, 1, 0⟩ :=
    runLoop_step scenarioCClips 10 (scenarioCReader g) comp 14 ⟨0, 5, 0, some (g (2/5)), [some (g 0), some (g (1/10)), some (g (1/5)), some (g (3/10)), some (g (2/5))], 0, 0, 0⟩ ⟨0, 6, 0, some (g (2/5)), [some (g 0), some (g (1/10)), some (g (1/5)), some (g (3/10)), some (g (2/5)), some (g (2/5))], 0, 1, 0⟩ h5
  have e6 : runLoop scenarioCClips 10 (scenarioCReader g) comp 14 ⟨0, 6, 0, some (g (2/5)), [some (g 0), some (g (1/10)), some (g (1/5)), some (g (3/10)), some (g (2/5)), some (g (2/5))], 0, 1, 0⟩
      = runLoop scenarioCClips 10 (scenarioCReader g) comp 13 ⟨0, 7, 0, some (g (3/5)), [some (g 0), some (g (1/10)), some (g (1/5)), some (g (3/10)), some (g (2/5)), some (g (2/5)), some (g (3/5))], 0, 1, 0⟩ :=
    runLoop_step scenarioCClips 10 (scenarioCReader g) comp 13 ⟨0, 6, 0, some (g (2/5)), [some (g 0), some (g (1/10)), some (g (1/5)), some (g (3/10)), some (g (2/5)), some (g (2/5))], 0, 1, 0⟩ ⟨0, 7, 0, some (g (3/5)), [some (g 0), some (g (1/10)), some (g (1/5)), some (g (3/10)), some (g (2/5)), some (g (2/5)), some (g (3/5))], 0, 1, 0⟩ h6
  have e7 : runLoop scenarioCClips 10 (scenarioCReader g) comp 13 ⟨0, 7, 0, some (g (3/5)), [some (g 0), some (g (1/10)), some (g (1/5)), some (g (3/10)), some (g (2/5)), some (g (2/5)), some (g (3/5))], 0, 1, 0⟩
      = runLoop scenarioCClips 10 (scenarioCReader g) comp 12 ⟨0, 8, 0, some (g (7/10)), [some (g 0), some (g (1/10)), some (g (1/5)), some (g (3/10)), some (g (2/5)), some (g (2/5)), some (g (3/5)), some (g (7/10))], 0, 1, 0⟩ :=
    runLoop_step scenarioCClips 10 (scenarioCReader g) comp 12 ⟨0, 7, 0, some (g (3/5)), [some (g 0), some (g (1/10)), some (g (1/5)), some (g (3/10)), some (g (2/5)), some (g (2/5)), some (g (3/5))], 0, 1, 0⟩ ⟨0, 8, 0, some (g (7/10)), [some (g 0), some (g (1/10)), some (g (1/5)), some (g (3/10)), some (g (2/5)), some (g (2/5)), some (g (3/5)), some (g (7/10))], 0, 1, 0⟩ h7
  have e8 : runLoop scenarioCClips 10 (scenarioCReader g) comp 12 ⟨0, 8, 0, some (g (7/10)), [some (g 0), some (g (1/10)), some (g (1/5)), some (g (3/10)), some (g (2/5)), some (g (2/5)), some (g (3/5)), some (g (7/10))], 0, 1, 0⟩
      = runLoop scenarioCClips 10 (scenarioCReader g) comp 11 ⟨0, 9, 0, some (g (4/5)), [some (g 0), some (g (1/10)), some (g (1/5)), some (g (3/10)), some (g (2/5)), some (g (2/5)), some (g (3/5)), some (g (7/10)), some (g (4/5))], 0, 1, 0⟩ :=
    runLoop_step scenarioCClips 10 (scenarioCReader g) comp 11 ⟨0, 8, 0, some (g (7/10)), [some (g 0), some (g (1/10)), some (g (1/5)), some (g (3/10)), some (g (2/5)), some (g (2/5)), some (g (3/5)), some (g (7/10))], 0, 1, 0⟩ ⟨0, 9, 0, some (g (4/5)), [some (g 0), some (g (1/10)), some (g (1/5)), some (g (3/10)), some (g (2/5)), some (g (2/5)), some (g (3/5)), some (g (7/10)), some (g (4/5))], 0, 1, 0⟩ h8
  have e9 : runLoop scenarioCClips 10 (scenarioCReader g) comp 11 ⟨0, 9, 0, some (g (4/5)), [some (g 0), some (g (1/10)), some (g (1/5)), some (g (3/10)), some (g (2/5)), some (g (2/5)), some (g (3/5)), some (g (7/10)), some (g (4/5))], 0, 1, 0⟩
      = runLoop scenarioCClips 10 (scenarioCReader g) comp 10 ⟨0, 10, 0, some (g (9/10)), [some (g 0), some (g (1/10)), some (g (1/5)), some (g (3/10)), some (g (2/5)), some (g (2/5)), some (g (3/5)), some (g (7/10)), some (g (4/5)), some (g (9/10))], 0, 1, 0⟩ :=
    runLoop_step scenarioCClips 10 (scenarioCReader g) comp 10 ⟨0, 9, 0, some (g (4/5)), [some (g 0), some (g (1/10)), some (g (1/5)), some (g (3/10)), some (g (2/5)), some (g (2/5)), some (g (3/5)), some (g (7/10)), some (g (4/5))], 0, 1, 0⟩ ⟨0, 10, 0, some (g (9/10)), [some (g 0), some (g (1/10)), some (g (1/5)), some (g (3/10)), some (g (2/5)), some (g (2/5)), some (g (3/5)), some (g (7/10)), some (g (4/5)), some (g (9/10))], 0, 1, 0⟩ h9
  have e10 : runLoop scenarioCClips 10 (scenarioCReader g) comp 10 ⟨0, 10, 0, some (g (9/10)), [some (g 0), some (g (1/10)), some (g (1/5)), some (g (3/10)), some (g (2/5)), some (g (2/5)), some (g (3/5)), some (g (7/10)), some (g (4/5)), some (g (9/10))], 0, 1, 0⟩
      = (⟨0, 10, 0, some (g (9/10)), [some (g 0), some (g (1/10)), some (g (1/5)), some (g (3/10)), some (g (2/5)), some (g (2/5)), some (g (3/5)), some (g (7/10)), some (g (4/5)), some (g (9/10))], 0, 1, 0⟩, true) :=
    runLoop_done scenarioCClips 10 (scenarioCReader g) comp 9 ⟨0, 10, 0, some (g (9/10)), [some (g 0), some (g (1/10)), some (g (1/5)), some (g (3/10)), some (g (2/5)), some (g (2/5)), some (g (3/5)), some (g (7/10)), some (g (4/5)), some (g (9/10))], 0, 1, 0⟩ h10
  exact e0.trans (e1.trans (e2.trans (e3.trans (e4.trans (e5.trans (e6.trans (e7.trans (e8.trans (e9.trans e10)))))))))

/-! ## Claims -/

/-- Claim C1, counterexample: at the first scheduler tick of the 2s/3s
10fps run with a 1s transition (a tick with a 'to' clip present), the code
computes `transitionNumFramesSafe = 10`, while the spec's formula
`floor(min(fromClipNumFrames, toClipNumFrames, transitionNumFrames) / 2)`
gives `5` — the code halves only the minimum of the two clip frame counts,
not the transition frame count. -/
theorem claim_C1_counterexample :
    fromClipNumFramesAt scenarioAClips 10 initState = some 20
      ∧ toClipNumFramesAt scenarioAClips 10 initState = some 30
      ∧ transitionNumFramesAt scenarioAClips 10 initState = some 10
      ∧ transitionNumFramesSafeAt scenarioAClips 10 initState = some 10
      ∧ specSafeOverlap 20 (some 30) 10 = 5
      ∧ transitionNumFramesSafeAt scenarioAClips 10 initState
          ≠ some (specSafeOverlap 20 (some 30) 10) := by
  with_unfolding_all decide

/-- Claim C1, amended: at every scheduler tick with a 'to' clip present,
`transitionNumFramesSafe = min(floor(min(fromClipNumFrames, toClipNumFrames) / 2),
transitionNumFrames)` — the halving applies only to the minimum of the two
adjacent clips' frame counts, and the transition's own frame count enters
the minimum unhalved. -/
theorem claim_C1_amended (clips : List Clip) (fps : ℚ) (st : RunState) (a b t : ℤ)
    (ha : fromClipNumFramesAt clips fps st = some a)
    (hb : toClipNumFramesAt clips fps st = some b)
    (ht : transitionNumFramesAt clips fps st = some t) :
    transitionNumFramesSafeAt clips fps st = some (min (min a b / 2) t) :=
  transitionNumFramesSafeAt_eq clips fps st a b t ha hb ht

/-- Witness for the amended claim C1, at the first tick of scenario A. -/
theorem claim_C1_amended_witness :
    fromClipNumFramesAt scenarioAClips 10 initState = some 20
      ∧ toClipNumFramesAt scenarioAClips 10 initState = some 30
      ∧ transitionNumFramesAt scenarioAClips 10 initState = some 10
      ∧ transitionNumFramesSafeAt scenarioAClips 10 initState
          = some (min (min 20 30 / 2) 10) :=
  ⟨by with_unfolding_all decide, by with_unfolding_all decide,
    by with_unfolding_all decide,
    claim_C1_amended scenarioAClips 10 initState 20 30 10
      (by with_unfolding_all decide) (by with_unfolding_all decide)
      (by with_unfolding_all decide)⟩

set_option maxRecDepth 100000 in
/-- Claim C2, counterexample: for the 2s + 3s timeline at 10 fps with a 1s
transition, the run completes and writes 40 frames of which 10 are blended
— not the 45 total / 5 blended the spec claims. -/
theorem claim_C2_counterexample :
    scenarioARun.2 = true
      ∧ scenarioARun.1.outFrames.length = 40
      ∧ scenarioARun.1.blendedFrames = 10
      ∧ scenarioARun.1.outFrames.length ≠ 45
      ∧ scenarioARun.1.blendedFrames ≠ 5 := by
  with_unfolding_all decide

set_option maxRecDepth 100000 in
/-- Claim C2, amended: for a two-clip timeline of a 2-second clip followed
by a 3-second clip at 10 fps with a 1-second transition, the run writes
exactly 10 blended frames and exactly 40 total output frames
(20 + 30 − 10). -/
theorem claim_C2_amended :
    scenarioARun.2 = true
      ∧ scenarioARun.1.outFrames.length = 20 + 30 - 10
      ∧ scenarioARun.1.blendedFrames = 10 := by
  with_unfolding_all decide

/-- Claim C3: the chunk reassembler is chunk-boundary invariant — for every
positive frame size, any two chunkings of the same byte stream produce the
same frame sequence; in particular any chunking equals the single
contiguous chunk, and so does the one-byte-at-a-time chunking. -/
theorem claim_C3 (fs : ℕ) (hfs : 0 < fs) :
    (∀ chunks1 chunks2 : List (List ℕ), chunks1.flatten = chunks2.flatten →
        rawVideoToFrames fs chunks1 = rawVideoToFrames fs chunks2)
      ∧ (∀ chunks : List (List ℕ),
        rawVideoToFrames fs chunks = rawVideoToFrames fs [chunks.flatten])
      ∧ (∀ l : List ℕ,
        rawVideoToFrames fs (l.map fun b => [b]) = rawVideoToFrames fs [l]) := by
  refine ⟨?_, ?_, ?_⟩
  · intro c1 c2 h
    rw [rawVideoToFrames_eq_framesOfBytes fs hfs, rawVideoToFrames_eq_framesOfBytes fs hfs, h]
  · intro cs
    rw [rawVideoToFrames_eq_framesOfBytes fs hfs, rawVideoToFrames_eq_framesOfBytes fs hfs]
    simp
  · intro l
    rw [rawVideoToFrames_eq_framesOfBytes fs hfs, rawVideoToFrames_eq_framesOfBytes fs hfs,
      flatten_map_singleton]
    simp

/-- Witness for claim C3: frame size 2, the stream 1,2,3,4,5 chunked three
ways. -/
theorem claim_C3_witness :
    (0 : ℕ) < 2
      ∧ rawVideoToFrames 2 [[1], [2, 3], [4, 5]] = rawVideoToFrames 2 [[1, 2, 3, 4, 5]]
      ∧ rawVideoToFrames 2 [[1], [2], [3], [4], [5]] = rawVideoToFrames 2 [[1, 2, 3, 4, 5]] :=
  ⟨by decide,
    (claim_C3 2 (by decide)).1 [[1], [2, 3], [4, 5]] [[1, 2, 3, 4, 5]] (by decide),
    (claim_C3 2 (by decide)).1 [[1], [2], [3], [4], [5]] [[1, 2, 3, 4, 5]] (by decide)⟩

/-- Claim C4: every emitted buffer is exactly `frameSize` bytes; the number
of emitted frames is the total byte count divided by `frameSize`, and their
concatenation is exactly the stream truncated at the last full frame — the
trailing partial frame is silently dropped, never emitted. -/
theorem claim_C4 (fs : ℕ) (chunks : List (List ℕ)) (hfs : 0 < fs) :
    (∀ b ∈ rawVideoToFrames fs chunks, b.length = fs)
      ∧ (rawVideoToFrames fs chunks).length = chunks.flatten.length / fs
      ∧ (rawVideoToFrames fs chunks).flatten
          = chunks.flatten.take (chunks.flatten.length / fs * fs) := by
  rw [rawVideoToFrames_eq_framesOfBytes fs hfs]
  exact ⟨length_of_mem_framesOfBytes fs chunks.flatten,
    framesOfBytes_length fs hfs chunks.flatten,
    framesOfBytes_flatten fs hfs chunks.flatten⟩

/-- Witness for claim C4: frame size 3, a 7-byte stream split in two chunks
(one trailing byte dropped). -/
theorem claim_C4_witness :
    (0 : ℕ) < 3
      ∧ ((∀ b ∈ rawVideoToFrames 3 [[1, 2], [3, 4, 5, 6, 7]], b.length = 3)
        ∧ (rawVideoToFrames 3 [[1, 2], [3, 4, 5, 6, 7]]).length
            = [[1, 2], [3, 4, 5, 6, 7]].flatten.length / 3
        ∧ (rawVideoToFrames 3 [[1, 2], [3, 4, 5, 6, 7]]).flatten
            = [[1, 2], [3, 4, 5, 6, 7]].flatten.take
                ([[1, 2], [3, 4, 5, 6, 7]].flatten.length / 3 * 3)) :=
  ⟨by decide, claim_C4 3 [[1, 2], [3, 4, 5, 6, 7]] (by decide)⟩

/-- Claim C5: the cut-mode compositor (no named transition source) returns
the 'from' buffer byte-for-byte when the eased progress is at most 1/2 and
the 'to' buffer byte-for-byte when it exceeds 1/2, for every pair of
equal-sized frame buffers and every progress value. -/
theorem claim_C5 (easingFunction : ℚ → ℚ) (fromFrame toFrame : Frame) (progress : ℚ)
    (_hlen : fromFrame.length = toFrame.length) :
    (easingFunction progress ≤ 1 / 2 →
        cutTransitionFrame easingFunction fromFrame toFrame progress = fromFrame)
      ∧ (1 / 2 < easingFunction progress →
        cutTransitionFrame easingFunction fromFrame toFrame progress = toFrame) := by
  unfold cutTransitionFrame
  constructor
  · intro h
    rw [if_neg (not_lt.mpr h)]
  · intro h
    rw [if_pos h]

/-- Witness for claim C5: linear easing on two 2-byte buffers. -/
theorem claim_C5_witness :
    ([0, 0] : Frame).length = ([255, 255] : Frame).length
      ∧ ((linear (1 / 4) ≤ 1 / 2 →
          cutTransitionFrame linear [0, 0] [255, 255] (1 / 4) = [0, 0])
        ∧ (1 / 2 < linear (1 / 4) →
          cutTransitionFrame linear [0, 0] [255, 255] (1 / 4) = [255, 255])) :=
  ⟨rfl, claim_C5 linear [0, 0] [255, 255] (1 / 4) rfl⟩

/-- Claim C6: after `parseConfig`, every non-final clip's transition
duration equals `min(configured, clip.duration / 2, nextClip.duration / 2)`
and the final clip's transition duration is 0. -/
theorem claim_C6 (clips : List Clip) (i : ℕ) :
    (∀ clip next : Clip, clips[i]? = some clip → clips[i + 1]? = some next →
        ((parseConfigClamp clips)[i]?).map Clip.transitionDuration
          = some (min clip.transitionDuration
              (min (clip.duration / 2) (next.duration / 2))))
      ∧ (∀ clip : Clip, clips[i]? = some clip → clips[i + 1]? = none →
        ((parseConfigClamp clips)[i]?).map Clip.transitionDuration = some 0) := by
  constructor
  · intro clip next hc hn
    rw [parseConfigClamp_getElem, hc, Option.map_some', Option.map_some']
    simp only [safeTransitionDuration, hn]
    rw [min_comm (min (clip.duration / 2) (next.duration / 2)) clip.transitionDuration]
  · intro clip hc hn
    rw [parseConfigClamp_getElem, hc, Option.map_some', Option.map_some']
    simp only [safeTransitionDuration, hn]

/-- Witness for claim C6, on the scenario A input clips at both indices. -/
theorem claim_C6_witness :
    scenarioAClipsIn[0]? = some ⟨2, 1⟩
      ∧ scenarioAClipsIn[1]? = some ⟨3, 0⟩
      ∧ scenarioAClipsIn[2]? = none
      ∧ ((parseConfigClamp scenarioAClipsIn)[0]?).map Clip.transitionDuration
          = some (min (1 : ℚ) (min (2 / 2) (3 / 2)))
      ∧ ((parseConfigClamp scenarioAClipsIn)[1]?).map Clip.transitionDuration = some 0 :=
  ⟨rfl, rfl, rfl,
    (claim_C6 scenarioAClipsIn 0).1 ⟨2, 1⟩ ⟨3, 0⟩ rfl rfl,
    (claim_C6 scenarioAClipsIn 1).2 ⟨3, 0⟩ rfl rfl⟩

/-- Claim C7: at every scheduler tick where a 'to' clip exists, the
computed blend-window length satisfies
`transitionNumFramesSafe ≤ floor(min(fromClipNumFrames, toClipNumFrames) / 2)`,
for all fps, clip durations, and transition durations. -/
theorem claim_C7 (clips : List Clip) (fps : ℚ) (st : RunState) (a b s : ℤ)
    (ha : fromClipNumFramesAt clips fps st = some a)
    (hb : toClipNumFramesAt clips fps st = some b)
    (hs : transitionNumFramesSafeAt clips fps st = some s) :
    s ≤ ⌊((min a b : ℤ) : ℚ) / 2⌋ := by
  rcases Option.map_eq_some'.mp ha with ⟨fc, hfc, hfca⟩
  rcases Option.map_eq_some'.mp hb with ⟨tc, htc, htcb⟩
  rcases Option.map_eq_some'.mp hs with ⟨fc2, hfc2, hfc2s⟩
  rw [hfc] at hfc2
  injection hfc2 with hfc2e
  subst hfc2e
  rw [htc, Option.map_some'] at hfc2s
  subst hfca
  subst htcb
  rw [← hfc2s]
  have hcast : ((min (clipNumFrames fps fc) (clipNumFrames fps tc) : ℤ) : ℚ)
      = min ((clipNumFrames fps fc : ℤ) : ℚ) ((clipNumFrames fps tc : ℤ) : ℚ) := by
    push_cast
    rfl
  rw [hcast]
  exact transitionNumFramesSafe_le_half_min _ _ _

/-- Witness for claim C7, at the first tick of scenario A. -/
theorem claim_C7_witness :
    fromClipNumFramesAt scenarioAClips 10 initState = some 20
      ∧ toClipNumFramesAt scenarioAClips 10 initState = some 30
      ∧ transitionNumFramesSafeAt scenarioAClips 10 initState = some 10
      ∧ (10 : ℤ) ≤ ⌊((min 20 30 : ℤ) : ℚ) / 2⌋ :=
  ⟨by with_unfolding_all decide, by with_unfolding_all decide,
    by with_unfolding_all decide,
    claim_C7 scenarioAClips 10 initState 20 30 10
      (by with_unfolding_all decide) (by with_unfolding_all decide)
      (by with_unfolding_all decide)⟩

/-- Claim C8, counterexample: at clip-relative time `t = start + layerDuration`
(here `start = 0`, `layerDuration = 1`, `t = 1`), which lies outside the
half-open window `[start, start + layerDuration)`, the wrapper still
invokes the producer and returns its frame: the window test in the code is
the closed `0 ≤ offsetProgress ≤ 1`, not the spec's half-open interval. -/
theorem claim_C8_counterexample :
    frameSourceReadNextFrame none 1 (fun _ => some [1]) 1 = some [1]
      ∧ ¬ ((0 : ℚ) ≤ 1 ∧ (1 : ℚ) < 0 + 1) := by
  constructor
  · with_unfolding_all decide
  · norm_num

/-- Claim C8, amended: for positive `layerDuration` the producer is invoked
(at normalized progress) exactly for `t` in the closed interval
`[start, start + layerDuration]`; strictly outside that closed interval the
producer is not invoked and the layer contributes nothing. -/
theorem claim_C8_amended (start layerDuration time : ℚ) (producer : ℚ → Option Frame)
    (hdur : 0 < layerDuration) :
    (start ≤ time ∧ time ≤ start + layerDuration →
        frameSourceReadNextFrame (some start) layerDuration producer time
          = producer ((time - start) / layerDuration))
      ∧ (time < start ∨ start + layerDuration < time →
        frameSourceReadNextFrame (some start) layerDuration producer time = none) := by
  unfold frameSourceReadNextFrame shouldDrawLayer
  simp only [Option.getD_some]
  constructor
  · rintro ⟨h1, h2⟩
    rw [if_pos]
    simp only [Bool.and_eq_true, decide_eq_true_eq]
    constructor
    · exact div_nonneg (by linarith) hdur.le
    · rw [div_le_one hdur]
      linarith
  · intro h
    rw [if_neg]
    simp only [Bool.and_eq_true, decide_eq_true_eq, not_and_or]
    rcases h with h | h
    · left
      rw [not_le]
      exact div_neg_of_neg_of_pos (by linarith) hdur
    · right
      rw [not_le]
      rw [lt_div_iff₀ hdur]
      linarith

/-- Witness for the amended claim C8: a 1-second layer starting at 0, read
inside the window at `t = 1/2` and outside it at `t = 2`. -/
theorem claim_C8_amended_witness :
    (0 : ℚ) < 1
      ∧ (((0 : ℚ) ≤ 1 / 2 ∧ (1 / 2 : ℚ) ≤ 0 + 1 →
          frameSourceReadNextFrame (some 0) 1 (fun _ => some [7]) (1 / 2)
            = (fun _ : ℚ => some ([7] : Frame)) ((1 / 2 - 0) / 1))
        ∧ ((1 / 2 : ℚ) < 0 ∨ (0 : ℚ) + 1 < 1 / 2 →
          frameSourceReadNextFrame (some 0) 1 (fun _ => some [7]) (1 / 2) = none)) :=
  ⟨by norm_num, claim_C8_amended 0 1 (1 / 2) (fun _ => some [7]) (by norm_num)⟩

/-- Claim C9: when the sole clip's frame source returns no data exactly on
tick 5 of the 10-tick run (frames on every other tick), the run completes
normally, writes 10 frames, output frame 5 is identical to output frame 4
(the last written buffer is reused), and exactly one "no frame data"
warning is recorded — for every frame assignment `g` and compositor. -/
theorem claim_C9 (g : ℚ → Frame) (comp : Frame → Frame → ℚ → Frame) :
    (scenarioCRun g comp).2 = true
      ∧ (scenarioCRun g comp).1.outFrames.length = 10
      ∧ (scenarioCRun g comp).1.outFrames[5]? = (scenarioCRun g comp).1.outFrames[4]?
      ∧ (scenarioCRun g comp).1.outFrames[5]? = some (some (g (2 / 5)))
      ∧ (scenarioCRun g comp).1.noFrame1Warnings = 1 := by
  rw [scenarioC_trace g comp]
  exact ⟨rfl, rfl, rfl, rfl, rfl⟩

/-- Claim C10: the clip-level renderer always returns a frame of exactly
`width × height × 4` bytes (given layer producers that honor the frame-size
contract and a canvas render of that size); with all layers silent it
returns the rendered blank canvas; and a scheduler running on renderers
that always return data never takes the "No frame data returned, using
last frame" fallback branch (its warning count stays 0 for any fuel). -/
theorem claim_C10 (width height : ℕ) (render : List Frame → Frame)
    (hrender : ∀ canvas, (render canvas).length = width * height * 4)
    (layerResults : List (Option Frame))
    (hlayers : ∀ b : Frame, some b ∈ layerResults → b.length = width * height * 4)
    (clips : List Clip) (fps : ℚ) (cr : ℕ → ℚ → Frame)
    (comp : Frame → Frame → ℚ → Frame) (fuel : ℕ) :
    (clipReadNextFrame render layerResults).length = width * height * 4
      ∧ clipReadNextFrame render (List.replicate layerResults.length none) = render []
      ∧ (runLoop clips fps (fun i t => some (cr i t)) comp fuel
          initState).1.noFrame1Warnings = 0 := by
  refine ⟨clipRenderLoop_length layerResults.length render (width * height * 4)
      hrender layerResults hlayers [], ?_, ?_⟩
  · unfold clipReadNextFrame
    rw [List.length_replicate]
    exact clipRenderLoop_all_none layerResults.length layerResults.length render []
  · exact runLoop_preserves_noFrame1 clips fps cr comp fuel initState

/-- Witness for claim C10: a 1×1 canvas, one honest layer, and a 3-tick run
of the scenario C clip list with an always-some reader. -/
theorem claim_C10_witness :
    (∀ canvas : List Frame, ((fun _ : List Frame => ([0, 0, 0, 0] : Frame)) canvas).length
        = 1 * 1 * 4)
      ∧ (∀ b : Frame, some b ∈ ([some [9, 9, 9, 9]] : List (Option Frame)) →
          b.length = 1 * 1 * 4)
      ∧ ((clipReadNextFrame (fun _ => [0, 0, 0, 0]) [some [9, 9, 9, 9]]).length = 1 * 1 * 4
        ∧ clipReadNextFrame (fun _ => [0, 0, 0, 0])
            (List.replicate ([some [9, 9, 9, 9]] : List (Option Frame)).length none)
            = (fun _ : List Frame => ([0, 0, 0, 0] : Frame)) []
        ∧ (runLoop scenarioCClips 10 (fun i t => some ((fun _ _ => ([1] : Frame)) i t))
            (fun f1 _ _ => f1) 3 initState).1.noFrame1Warnings = 0) :=
  ⟨fun _ => rfl,
    fun b hb => by
      rcases List.mem_singleton.mp hb with h
      cases h
      rfl,
    claim_C10 1 1 (fun _ => [0, 0, 0, 0]) (fun _ => rfl) [some [9, 9, 9, 9]]
      (fun b hb => by
        rcases List.mem_singleton.mp hb with h
        cases h
        rfl)
      scenarioCClips 10 (fun _ _ => [1]) (fun f1 _ _ => f1) 3⟩
